import Mathlib

/-!
Shallow embedding of `src/app.py` (block-header soundness commitment checker)
and theorems settling the specification claims.

Machine integers are modelled as `Nat`/`Int` (Python integers are unbounded);
byte strings are `List Nat` with entries below 256; fallible operations
(Python exceptions) return `Option`.  The Keccak-256 sponge used by
`Web3.keccak` is implemented concretely below and validated against its
published test vectors.
-/

/-! ## Keccak-256 (the hash used by `Web3.keccak`)

Keccak-f[1600] with rate 1088, capacity 512, original multi-rate padding
(0x01 .. 0x80) — the Ethereum variant, not NIST SHA3-256. -/

namespace Keccak

def MASK64 : Nat := 2 ^ 64 - 1

def rotl64 (x n : Nat) : Nat := ((x <<< n) ||| (x >>> (64 - n))) &&& MASK64

/-- The 24 round constants of Keccak-f[1600]. -/
def RC : List Nat :=
  [0x0000000000000001, 0x0000000000008082, 0x800000000000808a, 0x8000000080008000,
   0x000000000000808b, 0x0000000080000001, 0x8000000080008081, 0x8000000000008009,
   0x000000000000008a, 0x0000000000000088, 0x0000000080008009, 0x000000008000000a,
   0x000000008000808b, 0x800000000000008b, 0x8000000000008089, 0x8000000000008003,
   0x8000000000008002, 0x8000000000000080, 0x000000000000800a, 0x800000008000000a,
   0x8000000080008081, 0x8000000000008080, 0x0000000080000001, 0x8000000080008008]

/-- Rotation offsets as a 5x5 table: row x holds the offsets of lanes
(x, 0) .. (x, 4). -/
def rotTable : List (List Nat) :=
  [[0, 36, 3, 41, 18],
   [1, 44, 10, 45, 2],
   [62, 6, 43, 15, 61],
   [28, 55, 25, 21, 56],
   [27, 20, 39, 8, 14]]

/-- Rotation offset of lane (x, y). -/
def rotOff (x y : Nat) : Nat := (rotTable.getD x []).getD y 0

/-- State lane (x, y) of a 25-lane state. -/
def lane (A : List Nat) (x y : Nat) : Nat := A.getD (x + 5 * y) 0

def theta (A : List Nat) : List Nat :=
  let C : Nat → Nat := fun x =>
    lane A x 0 ^^^ lane A x 1 ^^^ lane A x 2 ^^^ lane A x 3 ^^^ lane A x 4
  let D : Nat → Nat := fun x => C ((x + 4) % 5) ^^^ rotl64 (C ((x + 1) % 5)) 1
  (List.range 25).map (fun i => A.getD i 0 ^^^ D (i % 5))

/-- Combined rho and pi steps: output lane (x', y') is the rotated source
lane (x' + 3y' mod 5, x'). -/
def rhoPi (A : List Nat) : List Nat :=
  (List.range 25).map (fun i =>
    let x := (i % 5 + 3 * (i / 5)) % 5
    let y := i % 5
    rotl64 (lane A x y) (rotOff x y))

def chi (A : List Nat) : List Nat :=
  (List.range 25).map (fun i =>
    let x := i % 5
    let y := i / 5
    lane A x y ^^^ ((lane A ((x + 1) % 5) y ^^^ MASK64) &&& lane A ((x + 2) % 5) y))

def iota (A : List Nat) (rc : Nat) : List Nat :=
  match A with
  | a0 :: rest => (a0 ^^^ rc) :: rest
  | [] => []

def keccakF (A : List Nat) : List Nat :=
  RC.foldl (fun S rc => iota (chi (rhoPi (theta S))) rc) A

/-- A lane read from up to 8 bytes, little-endian. -/
def leLane (bs : List Nat) : Nat := bs.foldr (fun b acc => b + 256 * acc) 0

def absorbBlock (A : List Nat) (block : List Nat) : List Nat :=
  keccakF ((List.range 25).map (fun j => A.getD j 0 ^^^ leLane ((block.drop (8 * j)).take 8)))

def absorbBlocks : List Nat → List (List Nat) → List Nat
  | A, [] => A
  | A, b :: bs => absorbBlocks (absorbBlock A b) bs

/-- Split into 136-byte rate blocks; the fuel argument (any bound of at least
the number of blocks, e.g. the length itself) keeps the recursion structural. -/
def chunk136 (fuel : Nat) (m : List Nat) : List (List Nat) :=
  match fuel, m with
  | 0, _ => []
  | _, [] => []
  | f + 1, rest => rest.take 136 :: chunk136 f (rest.drop 136)

/-- Original Keccak multi-rate padding for rate 136. -/
def pad101 (m : List Nat) : List Nat :=
  let padlen := 136 - m.length % 136
  if padlen = 1 then m ++ [0x81]
  else m ++ 0x01 :: (List.replicate (padlen - 2) 0 ++ [0x80])

/-- Keccak-256 of a byte sequence. -/
def keccak256 (m : List Nat) : List Nat :=
  let p := pad101 m
  let A := absorbBlocks (List.replicate 25 0) (chunk136 p.length p)
  ((List.range 4).map (fun j => (List.range 8).map (fun i => ((A.getD j 0) >>> (8 * i)) &&& 255))).flatten

end Keccak

namespace App

/-! ## Static network table and label resolution (`src/app.py` lines 12-21) -/

/-- The `NETWORKS` dict of `src/app.py`. -/
def NETWORKS : List (Nat × String) :=
  [(1, "Ethereum Mainnet"), (11155111, "Sepolia Testnet"), (10, "Optimism"),
   (137, "Polygon"), (42161, "Arbitrum One")]

/-- `network_name(cid)`: `NETWORKS.get(cid, fallback)` where the fallback
f-string embeds the numeric chain id. -/
def network_name (cid : Nat) : String :=
  match NETWORKS.lookup cid with
  | some label => label
  | none => "Unknown (chain ID " ++ toString cid ++ ")"

/-! ## Python `int(arg, 0)` (base-liberal integer literal parsing)

`parse_block_arg` falls back on `int(arg, 0)`, which accepts an optionally
signed decimal, 0x/0X hex, 0o/0O octal or 0b/0B binary literal with single
underscores between digits, surrounding ASCII whitespace stripped, and (in
base 0) no leading zeros on a nonzero decimal.  Modelled here for ASCII
input. -/

/-- Characters stripped by Python when parsing an integer literal. -/
def isPySpace (c : Char) : Bool :=
  c == ' ' || c == '\t' || c == '\n' || c == '\r' || c == Char.ofNat 11 || c == Char.ofNat 12

/-- Value of an alphanumeric digit character (liberal; callers bound it by the base). -/
def digitVal (c : Char) : Option Nat :=
  if '0' ≤ c ∧ c ≤ '9' then some (c.toNat - 48)
  else if 'a' ≤ c ∧ c ≤ 'z' then some (c.toNat - 97 + 10)
  else if 'A' ≤ c ∧ c ≤ 'Z' then some (c.toNat - 65 + 10)
  else none

/-- Digits continued after the first one: single underscores may separate
digits, never lead, trail, or double up. -/
def digitsCore (base : Nat) : List Char → Nat → Option Nat
  | [], acc => some acc
  | '_' :: c :: rest, acc =>
    match digitVal c with
    | some d => if d < base then digitsCore base rest (acc * base + d) else none
    | none => none
  | c :: rest, acc =>
    match digitVal c with
    | some d => if d < base then digitsCore base rest (acc * base + d) else none
    | none => none

/-- A nonempty digit group (no leading underscore). -/
def parseDigits (base : Nat) : List Char → Option Nat
  | [] => none
  | c :: rest =>
    match digitVal c with
    | some d => if d < base then digitsCore base rest d else none
    | none => none

/-- Digits after a base prefix; Python allows one underscore right after the prefix. -/
def parsePrefixed (base : Nat) (s : List Char) : Option Nat :=
  match s with
  | '_' :: rest => parseDigits base rest
  | _ => parseDigits base s

/-- Base-0 decimal: a nonzero value must not start with the digit 0. -/
def pyDecimal (s : List Char) : Option Nat :=
  match parseDigits 10 s with
  | some v =>
    match s with
    | '0' :: _ => if v = 0 then some 0 else none
    | _ => some v
  | none => none

def pyUnsignedBase0 (s : List Char) : Option Nat :=
  match s with
  | '0' :: c :: rest =>
    if c = 'x' ∨ c = 'X' then parsePrefixed 16 rest
    else if c = 'o' ∨ c = 'O' then parsePrefixed 8 rest
    else if c = 'b' ∨ c = 'B' then parsePrefixed 2 rest
    else pyDecimal ('0' :: c :: rest)
  | _ => pyDecimal s

def stripEnds (s : List Char) : List Char :=
  ((s.dropWhile isPySpace).reverse.dropWhile isPySpace).reverse

/-- Python `int(arg, 0)`: strip whitespace, one optional sign, then an
unsigned base-0 literal. -/
def pyIntBase0 (arg : String) : Option Int :=
  match stripEnds arg.data with
  | '+' :: rest => (pyUnsignedBase0 rest).map (fun n => (n : Int))
  | '-' :: rest => (pyUnsignedBase0 rest).map (fun n => -(n : Int))
  | s => (pyUnsignedBase0 s).map (fun n => (n : Int))

/-! ## Block reference parsing (`parse_block_arg`, lines 30-33) -/

/-- A parsed block reference: a literal height (Python int) or a symbolic tag. -/
inductive BlockId where
  | num (n : Int)
  | tag (t : String)
deriving DecidableEq

/-- Python `str.lower()` (ASCII model). -/
def str_lower (s : String) : String := String.mk (s.data.map Char.toLower)

/-- The four symbolic tags recognised at line 31. -/
def symbolicTags : List String := ["latest", "finalized", "safe", "pending"]

/-- `parse_block_arg(arg)`: lowercase tag if recognised, else `int(arg, 0)`;
`none` models the ValueError raised by `int` (caught at line 124 and turned
into exit code 1). -/
def parse_block_arg (arg : String) : Option BlockId :=
  if str_lower arg ∈ symbolicTags then some (BlockId.tag (str_lower arg))
  else
    match pyIntBase0 arg with
    | some i => some (BlockId.num i)
    | none => none

/-- The block reference passed to the secondary provider, from `main`
(line 136): `b_id = primary["number"] if isinstance(block_id, int) else block_id`. -/
def secondary_block_id (block_id : BlockId) (primary_number : Nat) : BlockId :=
  match block_id with
  | BlockId.num _ => BlockId.num (Int.ofNat primary_number)
  | BlockId.tag t => BlockId.tag t

/-! ## Hex encoding and decoding

Provider header fields arrive as `HexBytes`; `HexBytes.hex()` renders them as
a 0x-prefixed lowercase hex string, and `header_commitment` recovers the raw
bytes with `bytes.fromhex(....hex()[2:])`. -/

/-- One hex digit, lowercase. -/
def hexDigitChar (d : Nat) : Char :=
  if d < 10 then Char.ofNat (48 + d) else Char.ofNat (87 + d)

/-- `bytes.hex()` (unprefixed): two lowercase digits per byte. -/
def bytesHexChars : List Nat → List Char
  | [] => []
  | b :: bs => hexDigitChar (b / 16 % 16) :: hexDigitChar (b % 16) :: bytesHexChars bs

/-- `HexBytes.hex()`: 0x-prefixed lowercase hex. -/
def hexbytes_hex (bs : List Nat) : List Char := '0' :: 'x' :: bytesHexChars bs

/-- `bytes.fromhex`: pairs of hex digits (either case); odd length or a
non-hex character raises (here: `none`). -/
def hexPairsToBytes : List Char → Option (List Nat)
  | [] => some []
  | c1 :: c2 :: rest =>
    match digitVal c1, digitVal c2 with
    | some d1, some d2 =>
      if d1 < 16 ∧ d2 < 16 then (hexPairsToBytes rest).map (fun bs => (16 * d1 + d2) :: bs)
      else none
    | _, _ => none
  | _ => none

/-! ## Commitment construction (`header_commitment`, lines 35-55) -/

/-- Big-endian fixed-width byte encoding: byte i is `n / 256 ^ (k-1-i) % 256`. -/
def toBytesBE (k n : Nat) : List Nat := (List.range k).map (fun i => n / 256 ^ (k - 1 - i) % 256)

/-- Python `n.to_bytes(8, "big")`: OverflowError (here `none`) unless the
value fits in 8 unsigned bytes. -/
def to_bytes8 (n : Nat) : Option (List Nat) :=
  if n < 256 ^ 8 then some (toBytesBE 8 n) else none

/-- The header fields `header_commitment` reads from the provider response:
integers `number` and `timestamp` plus five hash-like raw byte fields. -/
structure Header where
  number : Nat
  timestamp : Nat
  hash : List Nat
  parentHash : List Nat
  stateRoot : List Nat
  receiptsRoot : List Nat
  transactionsRoot : List Nat
deriving DecidableEq

/-- `header_commitment(chain_id, header)`: concatenate
chainId[8] || number[8] || hash || parentHash || stateRoot || receiptsRoot ||
transactionsRoot || timestamp[8] and return `"0x" + Web3.keccak(fields).hex()`.
Note the code takes each hash-like field verbatim via
`bytes.fromhex(field.hex()[2:])` with no length check. -/
def header_commitment (chain_id : Nat) (h : Header) : Option String :=
  match to_bytes8 chain_id, to_bytes8 h.number,
      hexPairsToBytes ((hexbytes_hex h.hash).drop 2),
      hexPairsToBytes ((hexbytes_hex h.parentHash).drop 2),
      hexPairsToBytes ((hexbytes_hex h.stateRoot).drop 2),
      hexPairsToBytes ((hexbytes_hex h.receiptsRoot).drop 2),
      hexPairsToBytes ((hexbytes_hex h.transactionsRoot).drop 2),
      to_bytes8 h.timestamp with
  | some cid, some num, some hh, some ph, some sr, some rr, some tr, some ts =>
    some (String.mk ('0' :: 'x' :: hexbytes_hex
      (Keccak.keccak256 (cid ++ num ++ hh ++ ph ++ sr ++ rr ++ tr ++ ts))))
  | _, _, _, _, _, _, _, _ => none

/-- The 184-byte commitment preimage for in-range, well-formed inputs. -/
def preimage (chain_id : Nat) (h : Header) : List Nat :=
  toBytesBE 8 chain_id ++ toBytesBE 8 h.number ++ h.hash ++ h.parentHash ++
    h.stateRoot ++ h.receiptsRoot ++ h.transactionsRoot ++ toBytesBE 8 h.timestamp

/-! ## Bundles and the cross-check (`fetch_header_bundle`, `compare`) -/

/-- The dict built by `fetch_header_bundle` (lines 57-71). -/
structure Bundle where
  chain_id : Nat
  network : String
  number : Nat
  timestamp : Nat
  hash : String
  parentHash : String
  stateRoot : String
  receiptsRoot : String
  transactionsRoot : String
  commitment : String
deriving DecidableEq

/-- `fetch_header_bundle`, with the provider interaction abstracted to its
response: the reported chain id and the header at the requested reference. -/
def fetch_header_bundle (chain_id : Nat) (header : Header) : Option Bundle :=
  match header_commitment chain_id header with
  | some commitment =>
    some (Bundle.mk chain_id (network_name chain_id) header.number header.timestamp
      (String.mk (hexbytes_hex header.hash)) (String.mk (hexbytes_hex header.parentHash))
      (String.mk (hexbytes_hex header.stateRoot)) (String.mk (hexbytes_hex header.receiptsRoot))
      (String.mk (hexbytes_hex header.transactionsRoot)) commitment)
  | none => none

/-- The eight per-field booleans of `compare` (lines 84-104) plus the overall
verdict computed at line 104. -/
structure ComparisonResult where
  same_chain : Bool
  same_num : Bool
  same_hash : Bool
  same_parent : Bool
  same_state : Bool
  same_receipts : Bool
  same_txroot : Bool
  same_commit : Bool
  sound : Bool
deriving DecidableEq

/-- `compare(a, b)`: field-by-field equality and
`all([same_chain, ..., same_commit])`. -/
def compare (a b : Bundle) : ComparisonResult :=
  let same_chain := a.chain_id == b.chain_id
  let same_num := a.number == b.number
  let same_hash := a.hash == b.hash
  let same_parent := a.parentHash == b.parentHash
  let same_state := a.stateRoot == b.stateRoot
  let same_receipts := a.receiptsRoot == b.receiptsRoot
  let same_txroot := a.transactionsRoot == b.transactionsRoot
  let same_commit := a.commitment == b.commitment
  ComparisonResult.mk same_chain same_num same_hash same_parent same_state same_receipts
    same_txroot same_commit
    ([same_chain, same_num, same_hash, same_parent, same_state, same_receipts,
      same_txroot, same_commit].all (fun x => x))

end App
namespace App

/-- A well-formed 32-byte-field sample header, used by witnesses. -/
def sampleHeader : Header :=
  Header.mk 18000000 1700000000 (List.replicate 32 0x11) (List.replicate 32 0x22)
    (List.replicate 32 0x33) (List.replicate 32 0x44) (List.replicate 32 0x55)

/-- A header whose `stateRoot` has only 31 bytes (all other fields well-formed). -/
def badStateRootHeader : Header :=
  Header.mk 18000000 1700000000 (List.replicate 32 0x11) (List.replicate 32 0x22)
    (List.replicate 31 0x33) (List.replicate 32 0x44) (List.replicate 32 0x55)

/-- Another well-formed sample header, used by the injectivity witness. -/
def sampleHeaderInj : Header :=
  Header.mk 1 2 (List.replicate 32 1) (List.replicate 32 2) (List.replicate 32 3)
    (List.replicate 32 4) (List.replicate 32 5)

end App

/-! ## Theorems -/

set_option maxRecDepth 100000 in
/-- Keccak-256 known-answer test: the digest of the empty message is the
published value (this separates Keccak from NIST SHA3-256, whose empty digest
differs). -/
theorem keccak256_kat_empty : Keccak.keccak256 [] =
    [0xc5, 0xd2, 0x46, 0x01, 0x86, 0xf7, 0x23, 0x3c, 0x92, 0x7e, 0x7d, 0xb2, 0xdc, 0xc7, 0x03, 0xc0,
     0xe5, 0x00, 0xb6, 0x53, 0xca, 0x82, 0x27, 0x3b, 0x7b, 0xfa, 0xd8, 0x04, 0x5d, 0x85, 0xa4, 0x70] := by
  decide

set_option maxRecDepth 100000 in
/-- Keccak-256 known-answer test for the three-byte message "abc". -/
theorem keccak256_kat_abc : Keccak.keccak256 [97, 98, 99] =
    [0x4e, 0x03, 0x65, 0x7a, 0xea, 0x45, 0xa9, 0x4f, 0xc7, 0xd4, 0x7b, 0xa8, 0x26, 0xc8, 0xd6, 0x67,
     0xc0, 0xd1, 0xe6, 0xe3, 0x3a, 0x64, 0xa0, 0x36, 0xec, 0x44, 0xf5, 0x8f, 0xa1, 0x2d, 0x6c, 0x45] := by
  decide

namespace App

/-- `digitVal` decodes exactly what `hexDigitChar` encodes. -/
theorem digitVal_hexDigitChar : ∀ d : Nat, d < 16 → digitVal (hexDigitChar d) = some d := by
  decide

/-- `bytes.fromhex` inverts `bytes.hex()` up to reduction of each entry mod 256. -/
theorem hexPairs_roundtrip (bs : List Nat) :
    hexPairsToBytes (bytesHexChars bs) = some (bs.map (fun b => b % 256)) := by
  induction bs with
  | nil => rfl
  | cons b t ih =>
    have h1 : b / 16 % 16 < 16 := Nat.mod_lt _ (by norm_num)
    have h2 : b % 16 < 16 := Nat.mod_lt _ (by norm_num)
    have hb : 16 * (b / 16 % 16) + b % 16 = b % 256 := by omega
    simp only [bytesHexChars, hexPairsToBytes, digitVal_hexDigitChar _ h1,
      digitVal_hexDigitChar _ h2, h1, h2, and_self, if_true, ih, Option.map_some', hb,
      List.map_cons]

/-- Reducing every entry of a byte list mod 256 is the identity on true bytes. -/
theorem map_mod_id (bs : List Nat) (h : ∀ b ∈ bs, b < 256) :
    bs.map (fun b => b % 256) = bs := by
  induction bs with
  | nil => rfl
  | cons b t ih =>
    have hb : b % 256 = b := Nat.mod_eq_of_lt (h b (by simp))
    simp only [List.map_cons, hb, ih (fun x hx => h x (by simp [hx]))]

/-- `bytes.fromhex` inverts `bytes.hex()` exactly on true byte lists. -/
theorem hexPairs_roundtrip_of_lt (bs : List Nat) (h : ∀ b ∈ bs, b < 256) :
    hexPairsToBytes (bytesHexChars bs) = some bs := by
  rw [hexPairs_roundtrip, map_mod_id bs h]

/-- `to_bytes(8, "big")` succeeds on any value below 256^8. -/
theorem to_bytes8_of_lt (n : Nat) (h : n < 256 ^ 8) : to_bytes8 n = some (toBytesBE 8 n) := by
  unfold to_bytes8
  rw [if_pos h]

theorem toBytesBE_length (k n : Nat) : (toBytesBE k n).length = k := by
  simp [toBytesBE]

/-- The fixed-width big-endian encoding is injective below 256^8. -/
theorem toBytesBE8_inj (m n : Nat) (hm : m < 256 ^ 8) (hn : n < 256 ^ 8)
    (h : toBytesBE 8 m = toBytesBE 8 n) : m = n := by
  have hr : List.range 8 = [0, 1, 2, 3, 4, 5, 6, 7] := rfl
  simp only [toBytesBE, hr, List.map_cons, List.map_nil, List.cons.injEq, and_true] at h
  norm_num at h hm hn
  omega

end App

namespace App

/-- Claim C1 counterexample: at the concrete symbolic reference "latest" with
primary resolved height 18000000, `main` passes the symbolic tag itself to the
secondary provider (line 136), not the primary's literal height, so the
secondary re-resolves "latest" independently. -/
theorem tag_reference_not_replaced_by_primary_height :
    secondary_block_id (BlockId.tag ("latest")) 18000000 = BlockId.tag ("latest")
    ∧ secondary_block_id (BlockId.tag ("latest")) 18000000 ≠ BlockId.num 18000000 := by
  decide

/-- Claim C1 (amended): when the original reference is symbolic, the secondary
bundle is fetched with the symbolic tag passed through unchanged (independent
re-resolution); when it is a literal height, the secondary is fetched at the
primary bundle's resolved number. -/
theorem secondary_reference_selection :
    ∀ (t : String) (n : Nat) (i : Int),
      secondary_block_id (BlockId.tag t) n = BlockId.tag t
      ∧ secondary_block_id (BlockId.num i) n = BlockId.num (Int.ofNat n) := by
  intro t n i
  exact ⟨rfl, rfl⟩

/-- Claim C4 counterexample: the input "-5" denotes a negative integer, which
the claim says must fail with an error, yet `parse_block_arg` accepts it and
returns the height -5 (Python `int(arg, 0)` has no sign restriction). -/
theorem negative_reference_accepted :
    parse_block_arg ("-5") = some (BlockId.num (-5)) := by
  decide

/-- Claim C4 (amended): block-reference parsing accepts an input exactly when
its lowercasing is one of the four symbolic tags or Python `int(arg, 0)`
accepts it as an integer literal of either sign; in particular negative
heights are accepted rather than rejected, and every other input fails. -/
theorem parse_block_arg_acceptance :
    ∀ arg : String,
      ((parse_block_arg arg).isSome = true ↔
        (str_lower arg ∈ symbolicTags ∨ (pyIntBase0 arg).isSome = true))
      ∧ (∀ i : Int, str_lower arg ∉ symbolicTags → pyIntBase0 arg = some i →
          parse_block_arg arg = some (BlockId.num i)) := by
  intro arg
  constructor
  · unfold parse_block_arg
    split_ifs with hmem
    · simp [hmem]
    · cases hpy : pyIntBase0 arg <;> simp [hmem, hpy]
  · intro i hmem hpy
    unfold parse_block_arg
    rw [if_neg hmem, hpy]

/-- Claim C4 witness: the amended acceptance theorem applied at the concrete
negative input "-5". -/
theorem parse_block_arg_acceptance_witness :
    parse_block_arg ("-5") = some (BlockId.num (-5)) ∧ (-5 : Int) < 0 :=
  ⟨(parse_block_arg_acceptance ("-5")).2 (-5) (by decide) (by decide), by decide⟩

/-- Claim C10: symbolic tags are recognised case-insensitively (the lowercase
tag is returned), and numeric references go through Python base detection, so
hex, octal and binary literals are accepted as heights. -/
theorem parse_block_arg_case_and_base :
    (∀ arg : String, str_lower arg ∈ symbolicTags →
        parse_block_arg arg = some (BlockId.tag (str_lower arg)))
    ∧ parse_block_arg ("LATEST") = some (BlockId.tag ("latest"))
    ∧ parse_block_arg ("0x10") = some (BlockId.num 16)
    ∧ parse_block_arg ("0o10") = some (BlockId.num 8)
    ∧ parse_block_arg ("0b10") = some (BlockId.num 2)
    ∧ parse_block_arg ("Finalized") = some (BlockId.tag ("finalized")) := by
  refine ⟨?_, by decide, by decide, by decide, by decide, by decide⟩
  intro arg hmem
  unfold parse_block_arg
  rw [if_pos hmem]

/-- Claim C10 witness: the case-insensitivity branch applied at the concrete
input "Pending". -/
theorem parse_block_arg_case_and_base_witness :
    parse_block_arg ("Pending") = some (BlockId.tag ("pending")) :=
  parse_block_arg_case_and_base.1 ("Pending") (by decide)

/-- Claim C8: network-label resolution is a total function: a chain id found
in the static table yields the table's label (e.g. 1 yields "Ethereum
Mainnet"), and any chain id missing from the table yields the fallback label
embedding the numeric id. -/
theorem network_name_total_with_fallback :
    (∀ cid : Nat,
        (∀ label : String, NETWORKS.lookup cid = some label → network_name cid = label)
        ∧ (NETWORKS.lookup cid = none →
            network_name cid = "Unknown (chain ID " ++ toString cid ++ ")"))
    ∧ network_name 1 = "Ethereum Mainnet" := by
  refine ⟨?_, by decide⟩
  intro cid
  constructor
  · intro label hl
    unfold network_name
    rw [hl]
  · intro hl
    unfold network_name
    rw [hl]

/-- Claim C8 witness: resolution at the known chain id 137 and at the unknown
chain id 99999. -/
theorem network_name_total_with_fallback_witness :
    network_name 137 = "Polygon"
    ∧ network_name 99999 = "Unknown (chain ID " ++ toString 99999 ++ ")" :=
  ⟨(network_name_total_with_fallback.1 137).1 ("Polygon") (by decide),
   (network_name_total_with_fallback.1 99999).2 (by decide)⟩

/-- Claim C6: the overall `sound` verdict is the conjunction of the eight
per-field booleans, and it is `true` exactly when all eight compared fields
are equal. -/
theorem sound_iff_all_fields_match :
    ∀ a b : Bundle,
      ((compare a b).sound =
        ((compare a b).same_chain && (compare a b).same_num && (compare a b).same_hash &&
         (compare a b).same_parent && (compare a b).same_state && (compare a b).same_receipts &&
         (compare a b).same_txroot && (compare a b).same_commit))
      ∧ ((compare a b).sound = true ↔
          (a.chain_id = b.chain_id ∧ a.number = b.number ∧ a.hash = b.hash ∧
           a.parentHash = b.parentHash ∧ a.stateRoot = b.stateRoot ∧
           a.receiptsRoot = b.receiptsRoot ∧ a.transactionsRoot = b.transactionsRoot ∧
           a.commitment = b.commitment)) := by
  intro a b
  constructor
  · simp [compare, List.all, Bool.and_assoc]
  · simp [compare, List.all, Bool.and_eq_true, beq_iff_eq, and_assoc]

end App

namespace App

/-- Claim C2: for chainId, number and timestamp representable in 8 unsigned
bytes and the five hash-like fields exactly 32 bytes, the commitment is
Keccak-256 of the fixed-width concatenation chainId[8] || number[8] ||
hash[32] || parentHash[32] || stateRoot[32] || receiptsRoot[32] ||
transactionsRoot[32] || timestamp[8], a 184-byte preimage with no
delimiters or length prefixes. -/
theorem commitment_preimage_layout (c : Nat) (h : Header)
    (hc : c < 256 ^ 8) (hn : h.number < 256 ^ 8) (ht : h.timestamp < 256 ^ 8)
    (w1 : ∀ b ∈ h.hash, b < 256) (w2 : ∀ b ∈ h.parentHash, b < 256)
    (w3 : ∀ b ∈ h.stateRoot, b < 256) (w4 : ∀ b ∈ h.receiptsRoot, b < 256)
    (w5 : ∀ b ∈ h.transactionsRoot, b < 256)
    (l1 : h.hash.length = 32) (l2 : h.parentHash.length = 32) (l3 : h.stateRoot.length = 32)
    (l4 : h.receiptsRoot.length = 32) (l5 : h.transactionsRoot.length = 32) :
    header_commitment c h =
      some (String.mk ('0' :: 'x' :: hexbytes_hex (Keccak.keccak256 (preimage c h))))
    ∧ (preimage c h).length = 184 := by
  have hd : ∀ bs : List Nat, (hexbytes_hex bs).drop 2 = bytesHexChars bs := fun _ => rfl
  constructor
  · unfold header_commitment
    rw [to_bytes8_of_lt c hc, to_bytes8_of_lt _ hn, to_bytes8_of_lt _ ht, hd, hd, hd, hd, hd,
      hexPairs_roundtrip_of_lt _ w1, hexPairs_roundtrip_of_lt _ w2, hexPairs_roundtrip_of_lt _ w3,
      hexPairs_roundtrip_of_lt _ w4, hexPairs_roundtrip_of_lt _ w5]
    rfl
  · simp [preimage, toBytesBE_length, l1, l2, l3, l4, l5]

/-- Claim C2 witness: the layout theorem applied at a concrete well-formed
header. -/
theorem commitment_preimage_layout_witness :
    header_commitment 1 sampleHeader =
      some (String.mk ('0' :: 'x' :: hexbytes_hex (Keccak.keccak256 (preimage 1 sampleHeader))))
    ∧ (preimage 1 sampleHeader).length = 184 :=
  commitment_preimage_layout 1 sampleHeader (by decide) (by decide) (by decide)
    (by decide) (by decide) (by decide) (by decide) (by decide)
    (by decide) (by decide) (by decide) (by decide) (by decide)

/-- Claim C3 counterexample: a header whose stateRoot has 31 bytes is not
rejected: commitment construction succeeds and produces a digest instead of
failing with an error. -/
theorem wrong_length_field_not_rejected :
    (header_commitment 1 badStateRootHeader).isSome = true
    ∧ badStateRootHeader.stateRoot.length ≠ 32 := by
  exact ⟨rfl, by decide⟩

/-- Claim C3 (amended): commitment construction fails exactly when chainId,
number or timestamp exceeds the range of 8 unsigned bytes (the
`int.to_bytes(8, "big")` OverflowError); the byte lengths of the five
hash-like fields are never validated — fields of any length are hashed. -/
theorem commitment_failure_characterization :
    ∀ (c : Nat) (h : Header),
      (header_commitment c h).isSome = true ↔
        (c < 256 ^ 8 ∧ h.number < 256 ^ 8 ∧ h.timestamp < 256 ^ 8) := by
  intro c h
  have hd : ∀ bs : List Nat, (hexbytes_hex bs).drop 2 = bytesHexChars bs := fun _ => rfl
  unfold header_commitment to_bytes8
  simp only [hd, hexPairs_roundtrip]
  split_ifs with h1 h2 h3 <;> simp_all

/-- Claim C7: the 184-byte preimage encoding is injective over the field
domain: two in-range inputs with 32-byte hash-like fields that assemble to
the same preimage agree on the chain id and every header field (so inputs
differing in any field assemble to different preimages). -/
theorem preimage_injective
    (c1 c2 : Nat) (h1 h2 : Header)
    (hc1 : c1 < 256 ^ 8) (hc2 : c2 < 256 ^ 8)
    (hn1 : h1.number < 256 ^ 8) (hn2 : h2.number < 256 ^ 8)
    (ht1 : h1.timestamp < 256 ^ 8) (ht2 : h2.timestamp < 256 ^ 8)
    (l1 : h1.hash.length = 32) (m1 : h2.hash.length = 32)
    (l2 : h1.parentHash.length = 32) (m2 : h2.parentHash.length = 32)
    (l3 : h1.stateRoot.length = 32) (m3 : h2.stateRoot.length = 32)
    (l4 : h1.receiptsRoot.length = 32) (m4 : h2.receiptsRoot.length = 32)
    (l5 : h1.transactionsRoot.length = 32) (m5 : h2.transactionsRoot.length = 32)
    (hp : preimage c1 h1 = preimage c2 h2) : c1 = c2 ∧ h1 = h2 := by
  unfold preimage at hp
  obtain ⟨hp, e8⟩ := List.append_inj hp
    (by simp [toBytesBE_length, l1, m1, l2, m2, l3, m3, l4, m4, l5, m5])
  obtain ⟨hp, e7⟩ := List.append_inj hp
    (by simp [toBytesBE_length, l1, m1, l2, m2, l3, m3, l4, m4])
  obtain ⟨hp, e6⟩ := List.append_inj hp
    (by simp [toBytesBE_length, l1, m1, l2, m2, l3, m3])
  obtain ⟨hp, e5⟩ := List.append_inj hp (by simp [toBytesBE_length, l1, m1, l2, m2])
  obtain ⟨hp, e4⟩ := List.append_inj hp (by simp [toBytesBE_length, l1, m1])
  obtain ⟨hp, e3⟩ := List.append_inj hp (by simp [toBytesBE_length])
  obtain ⟨e1, e2⟩ := List.append_inj hp (by simp [toBytesBE_length])
  refine ⟨toBytesBE8_inj _ _ hc1 hc2 e1, ?_⟩
  obtain ⟨n1, t1, a1, b1, s1, r1, x1⟩ := h1
  obtain ⟨n2, t2, a2, b2, s2, r2, x2⟩ := h2
  simp only [Header.mk.injEq]
  exact ⟨toBytesBE8_inj _ _ hn1 hn2 e2, toBytesBE8_inj _ _ ht1 ht2 e8, e3, e4, e5, e6, e7⟩

/-- Claim C7 witness: the injectivity theorem applied at a concrete in-range
pair with equal preimages. -/
theorem preimage_injective_witness :
    (1 : Nat) = 1 ∧ sampleHeaderInj = sampleHeaderInj :=
  preimage_injective 1 1 sampleHeaderInj sampleHeaderInj (by decide) (by decide) (by decide)
    (by decide) (by decide) (by decide) (by decide) (by decide) (by decide) (by decide)
    (by decide) (by decide) (by decide) (by decide) (by decide) (by decide) rfl

/-- Claim C9: the commitment is a pure function of the chain id and the
header field values: equal field values give byte-for-byte equal
commitments, whichever record (provider response) carried them; the model
has no time or randomness inputs at all. -/
theorem commitment_depends_only_on_fields :
    ∀ (c1 c2 : Nat) (h1 h2 : Header),
      c1 = c2 → h1.number = h2.number → h1.timestamp = h2.timestamp →
      h1.hash = h2.hash → h1.parentHash = h2.parentHash → h1.stateRoot = h2.stateRoot →
      h1.receiptsRoot = h2.receiptsRoot → h1.transactionsRoot = h2.transactionsRoot →
      header_commitment c1 h1 = header_commitment c2 h2 := by
  intro c1 c2 h1 h2 hc hn ht hh hp hs hr hx
  obtain ⟨n1, t1, a1, b1, s1, r1, x1⟩ := h1
  obtain ⟨n2, t2, a2, b2, s2, r2, x2⟩ := h2
  dsimp only at hn ht hh hp hs hr hx
  subst hc hn ht hh hp hs hr hx
  rfl

/-- Claim C9 witness: determinism applied at two syntactically different but
field-equal concrete inputs. -/
theorem commitment_depends_only_on_fields_witness :
    header_commitment 5 (Header.mk 7 9 [1] [2] [3] [4] [5]) =
      header_commitment (2 + 3) (Header.mk (3 + 4) 9 [1] [2] [3] [4] [5]) :=
  commitment_depends_only_on_fields 5 (2 + 3) (Header.mk 7 9 [1] [2] [3] [4] [5])
    (Header.mk (3 + 4) 9 [1] [2] [3] [4] [5]) (by decide) (by decide) rfl rfl rfl rfl rfl rfl

end App
